import Mathlib

/-!
Verification of the structured-generation pipeline of the `ai_flashcards`
backend (`src/backend/app/services/llm_client.py` together with
`src/backend/app/prompts/registry.py` and the deck schema module).

The pipeline is shallowly embedded: Pydantic models become Lean structures,
the LangChain LLM capability becomes an explicit function from a messages
list to an `Except`-valued tri-state invoke result, and `generate_deck`
becomes a pure function that additionally returns the trace of messages
lists sent to the capability (so that "number of calls" properties can be
stated).  Python exceptions are modelled by their textual rendering
(`str(e)`), datetimes by an abstract `Nat` instant, and UUIDs by strings.
-/

namespace AIFlashcards

/-- Model of `TokenUsage` from `app/schemas/deck.py` (three non-negative
counters; the schema enforces `ge=0`, hence `Nat`). -/
structure TokenUsage where
  prompt : Nat
  completion : Nat
  total : Nat
deriving Repr, DecidableEq

/-- The `usage_metadata` dictionary of a LangChain message: each counter key
may be absent (`Option`). -/
structure UsageMetadata where
  input_tokens : Option Nat
  output_tokens : Option Nat
  total_tokens : Option Nat
deriving Repr, DecidableEq

/-- A raw LangChain response message: `usage_metadata` may be absent or
`None`; `content` is the textual payload (always present on a message). -/
structure RawMessage where
  usage_metadata : Option UsageMetadata
  content : String
deriving Repr, DecidableEq

/-- Model of `LLMConcept` from `app/schemas/deck.py`: an LLM-produced concept,
carrying no identity. -/
structure LLMConcept where
  title : String
  bullets : List String
  example_possible : Bool
  example_hint : Option String
deriving Repr, DecidableEq

/-- Model of `LLMDeckOutput` from `app/schemas/deck.py`: the container of
LLM-produced concepts. -/
structure LLMDeckOutput where
  concepts : List LLMConcept
deriving Repr, DecidableEq

/-- Model of `Concept` from `app/schemas/deck.py`.
Modelled from the spec: `app/schemas/deck.py` is not under `src/`; per the
spec a `Concept` is a `RawConcept` plus a generated unique card identifier,
assigned only at promotion time and never produced by the LLM. -/
structure Concept where
  card_id : String
  title : String
  bullets : List String
  example_possible : Bool
  example_hint : Option String
deriving Repr, DecidableEq

/-- Model of `DeckGenerateRequest` (already normalised/validated). -/
structure DeckGenerateRequest where
  topic : String
  difficulty_level : String
  max_concepts : Nat
  scope : Option String
deriving Repr, DecidableEq

/-- Model of `GenerationMetadata` from `app/schemas/deck.py`; the timestamp is an
abstract instant. -/
structure GenerationMetadata where
  model : String
  prompt_version : String
  tokens : TokenUsage
  timestamp : Nat
  rag_used : Bool
deriving Repr, DecidableEq

/-- Model of `DeckResponse` from `app/schemas/deck.py`: the final success value.
`schema_version` defaults to "1.0" in the Pydantic model (per
`tests/unit/test_schemas.py`); the embedding materialises the default at
construction. -/
structure DeckResponse where
  deck_id : String
  schema_version : String
  topic : String
  difficulty_level : String
  scope : Option String
  concepts : List Concept
  generation_metadata : GenerationMetadata
deriving Repr, DecidableEq

/-- One entry of the `validation_errors` list inside the
`SchemaValidationFailedError` details payload. -/
structure ValidationErrorItem where
  field : String
  message : String
  type : String
deriving Repr, DecidableEq

/-- The details payload attached to `SchemaValidationFailedError` on the
double-failure path of `generate_deck` (llm_client.py lines 188-198). -/
structure FailureDetails where
  validation_errors : List ValidationErrorItem
  parsing_error : String
  repair_error : String
deriving Repr, DecidableEq

/-- The typed failures `generate_deck` can surface: the
`SchemaValidationFailedError` it raises itself, or any other exception of
the LLM capability, propagated unchanged (modelled by its text). -/
inductive GenError where
  | schemaValidationFailed (message : String) (details : FailureDetails)
  | provider (e : String)
deriving Repr, DecidableEq

/-- The tri-state result of `LLMClient._invoke_structured`: parsed payload,
raw response message, parsing/validation error (each possibly absent; the
error is modelled by its `str()` rendering). -/
structure InvokeResult where
  parsed : Option LLMDeckOutput
  raw : Option RawMessage
  parsing_error : Option String
deriving Repr, DecidableEq

/-- The LLM capability handle: a call either raises (provider failure,
carried as `Except.error` with the exception text) or returns the tri-state
invoke result.  A deterministic function of the messages list sent. -/
def Capability : Type := List (String × String) → Except String InvokeResult

/-- Model of `LLMClient._token_usage_from_raw`: `getattr(raw_message,
"usage_metadata", None) or {}` followed by `.get(key, 0)` per counter. -/
def token_usage_from_raw (raw_message : Option RawMessage) : TokenUsage :=
  match raw_message.bind (fun m => m.usage_metadata) with
  | none => { prompt := 0, completion := 0, total := 0 }
  | some usage =>
      { prompt := usage.input_tokens.getD 0
        completion := usage.output_tokens.getD 0
        total := usage.total_tokens.getD 0 }

/-- Model of `LLMClient._combine_tokens`: field-wise addition. -/
def combine_tokens (first second : TokenUsage) : TokenUsage :=
  { prompt := first.prompt + second.prompt
    completion := first.completion + second.completion
    total := first.total + second.total }

/-- Model of `LLMClient._as_text` restricted to the payloads the pipeline feeds it
(strings, or exceptions modelled by their text): `None` becomes the empty
string, anything else is truncated to the source default of 1600
characters (Python `text[:1600]`). -/
def as_text (value : Option String) : String :=
  match value with
  | none => ""
  | some text => text.take 1600

/-- Model of `getattr(raw_message, "content", raw_message)` fed to `_as_text` on the
repair path: the content of the raw message when there is one, absent when
the raw response itself is `None`. -/
def raw_content (raw_message : Option RawMessage) : Option String :=
  match raw_message with
  | none => none
  | some m => some m.content

/-- Text of `DECK_SYSTEM_PROMPT_V1` from `app/prompts/registry.py`. -/
def DECK_SYSTEM_PROMPT_V1 : String :=
  "You are an expert educational content creator.\nYour task is to create a set of flashcard concepts for learning.\n\nRules:\n1. Generate between 3-7 concept cards based on the topic.\n2. Each concept must have exactly 5 bullet points.\n3. Bullets should progress from basic to more nuanced understanding.\n4. Set example_possible to true only if a concrete example would help.\n5. If example_possible is true, provide a brief example_hint.\n6. Keep bullet points concise (under 100 characters each).\n7. Ensure concepts are distinct and don\x27t overlap.\n8. Match content difficulty to the specified level.\n\nOutput valid JSON only. No markdown, no code blocks."

/-- Table `PROMPT_VERSIONS` from `app/prompts/registry.py`. -/
def PROMPT_VERSIONS : List (String × String) :=
  [("deck_system", "v1"), ("deck_user", "v1")]

/-- Model of `get_deck_prompts` from `app/prompts/registry.py`: renders the system
and user prompt.  Python's `if scope` is falsy on both `None` and the empty
string. -/
def get_deck_prompts (topic : String) (difficulty_level : String)
    (max_concepts : Nat) (scope : Option String) : String × String :=
  let scope_line :=
    match scope with
    | some s => if s = "" then "" else "Scope: " ++ s
    | none => ""
  let user_prompt :=
    "Create flashcard concepts for:\n\nTopic: " ++ topic ++
    "\nDifficulty: " ++ difficulty_level ++
    "\nNumber of concepts: " ++ toString max_concepts ++
    "\n" ++ scope_line ++
    "\n\nGenerate educational flashcard concepts following the schema exactly."
  (DECK_SYSTEM_PROMPT_V1, user_prompt)

/-- The messages list of the primary call (llm_client.py lines 164-167). -/
def primary_messages (system_prompt user_prompt : String) :
    List (String × String) :=
  [("system", system_prompt), ("human", user_prompt)]

/-- The fixed repair system instruction of `LLMClient._repair_once`. -/
def REPAIR_SYSTEM_PROMPT : String :=
  "You repair invalid JSON payloads to exactly match a schema. Return JSON only. Do not add markdown or explanations."

/-- Modelled from the spec: `json.dumps(LLMDeckOutput.model_json_schema())`
serialises the schema of the (missing) `app/schemas/deck.py` Pydantic model;
the spec only requires "a serialized schema description", so the embedding
uses an opaque-but-concrete constant. -/
def LLM_DECK_OUTPUT_SCHEMA_JSON : String :=
  "\x7b\"title\": \"LLMDeckOutput\", \"type\": \"object\"\x7d"

/-- The repair user prompt built by `LLMClient._repair_once`
(llm_client.py lines 125-132). -/
def repair_user_prompt (base_system_prompt base_user_prompt raw_output
    parsing_error : String) : String :=
  "Repair the following invalid LLM output.\n\n" ++
  "Original system prompt:\n" ++ base_system_prompt ++ "\n\n" ++
  "Original user prompt:\n" ++ base_user_prompt ++ "\n\n" ++
  "Validation/parsing error:\n" ++ parsing_error ++ "\n\n" ++
  "Required schema:\n" ++ LLM_DECK_OUTPUT_SCHEMA_JSON ++ "\n\n" ++
  "Invalid output to repair:\n" ++ raw_output

/-- The messages list of the repair call (llm_client.py lines 133-138). -/
def repair_messages (base_system_prompt base_user_prompt raw_output
    parsing_error : String) : List (String × String) :=
  [("system", REPAIR_SYSTEM_PROMPT),
   ("human", repair_user_prompt base_system_prompt base_user_prompt
      raw_output parsing_error)]

/-- The promotion of RawConcepts to Concepts in `generate_deck`
(llm_client.py lines 212-220): copy title/bullets/example fields, let the
`Concept` model assign a fresh identifier.
Modelled from the spec for the identifier: `app/schemas/deck.py` is not
under `src/`; `card_id` is generated at construction (uuid4), modelled by
an identifier supply `freshId` giving the i-th generated identifier. -/
def promote_concepts (freshId : Nat → String) (cs : List LLMConcept) :
    List Concept :=
  cs.mapIdx fun i c =>
    { card_id := freshId i
      title := c.title
      bullets := c.bullets
      example_possible := c.example_possible
      example_hint := c.example_hint }

/-- The details payload raised when the repair result also fails
(llm_client.py lines 188-198). -/
def double_failure_details (parsing_error repair_error : Option String) :
    FailureDetails :=
  { validation_errors :=
      [{ field := "response"
         message := "Deck output failed schema validation after repair attempt."
         type := "schema_validation_failed" }]
    parsing_error := as_text parsing_error
    repair_error := as_text repair_error }

/-- Assembly of the final `DeckResponse` (llm_client.py lines 222-235). -/
def mk_response (model : String) (request : DeckGenerateRequest)
    (deck_id : String) (start_time : Nat) (freshId : Nat → String)
    (llm_output : LLMDeckOutput) (actual_tokens : TokenUsage) : DeckResponse :=
  { deck_id := deck_id
    schema_version := "1.0"
    topic := request.topic
    difficulty_level := request.difficulty_level
    scope := request.scope
    concepts := promote_concepts freshId llm_output.concepts
    generation_metadata :=
      { model := model
        prompt_version := ((PROMPT_VERSIONS.lookup "deck_system").getD "")
        tokens := actual_tokens
        timestamp := start_time
        rag_used := false } }

/-- Messages list of the primary call of a run on `request`
(llm_client.py lines 147-167). -/
def primary_messages_for (request : DeckGenerateRequest) :
    List (String × String) :=
  primary_messages
    (get_deck_prompts request.topic request.difficulty_level
      request.max_concepts request.scope).1
    (get_deck_prompts request.topic request.difficulty_level
      request.max_concepts request.scope).2

/-- Messages list of the repair call of a run on `request` whose primary
call returned `r1` (llm_client.py lines 178-183): the raw content and the
parsing error are both passed through `_as_text`. -/
def repair_messages_for (request : DeckGenerateRequest) (r1 : InvokeResult) :
    List (String × String) :=
  repair_messages
    (get_deck_prompts request.topic request.difficulty_level
      request.max_concepts request.scope).1
    (get_deck_prompts request.topic request.difficulty_level
      request.max_concepts request.scope).2
    (as_text (raw_content r1.raw)) (as_text r1.parsing_error)

/-- Model of `LLMClient.generate_deck` (llm_client.py lines 140-269), as a
pure function of the capability handle `cap`, the identifier supply
`freshId` (uuid4), the configured model name, the request, the
caller-supplied deck id, and the start instant `datetime.now` would record.
Returns the outcome (`Except`: a raised exception or the response) together
with the trace of messages lists sent to the capability. -/
def generate_deck (cap : Capability) (freshId : Nat → String)
    (model : String) (request : DeckGenerateRequest) (deck_id : String)
    (start_time : Nat) :
    Except GenError DeckResponse × List (List (String × String)) :=
  let messages := primary_messages_for request
  match cap messages with
  | Except.error e => (Except.error (GenError.provider e), [messages])
  | Except.ok r1 =>
    let actual_tokens := token_usage_from_raw r1.raw
    match r1.parsed, r1.parsing_error with
    | some llm_output, none =>
        (Except.ok (mk_response model request deck_id start_time freshId
          llm_output actual_tokens), [messages])
    | _, _ =>
      let rmsgs := repair_messages_for request r1
      match cap rmsgs with
      | Except.error e =>
          (Except.error (GenError.provider e), [messages, rmsgs])
      | Except.ok r2 =>
        let tokens := combine_tokens actual_tokens (token_usage_from_raw r2.raw)
        match r2.parsed, r2.parsing_error with
        | some repaired_output, none =>
            (Except.ok (mk_response model request deck_id start_time freshId
              repaired_output tokens), [messages, rmsgs])
        | _, _ =>
            (Except.error (GenError.schemaValidationFailed
              "Deck output failed schema validation."
              (double_failure_details r1.parsing_error r2.parsing_error)),
             [messages, rmsgs])

/-! Concrete fixtures used by witnesses and the counterexample: a request,
LLM outputs, raw messages with usage counters, and capability handles
realising each scenario (mirroring `tests/unit/test_llm_client.py`). -/

/-- Identifier supply standing for uuid4 in concrete runs. -/
def fid0 : Nat → String := fun i => "card-" ++ toString i

/-- A concrete validated request. -/
def req0 : DeckGenerateRequest :=
  { topic := "BST", difficulty_level := "beginner", max_concepts := 3,
    scope := none }

/-- A concrete valid LLM deck output. -/
def out0 : LLMDeckOutput :=
  { concepts :=
      [{ title := "Binary Search Tree"
         bullets := ["b1", "b2", "b3", "b4", "b5"]
         example_possible := true
         example_hint := some "Try an insert trace" }] }

/-- Usage counters of the concrete primary call. -/
def usage1 : UsageMetadata :=
  { input_tokens := some 10, output_tokens := some 20, total_tokens := some 30 }

/-- Usage counters of the concrete repair call. -/
def usage2 : UsageMetadata :=
  { input_tokens := some 5, output_tokens := some 7, total_tokens := some 12 }

/-- Raw message of the concrete primary call. -/
def raw1 : RawMessage := { usage_metadata := some usage1, content := "bad json" }

/-- Raw message of the concrete repair call. -/
def raw2 : RawMessage :=
  { usage_metadata := some usage2, content := "repaired json" }

/-- A primary invoke result that fails parsing. -/
def r1_fail : InvokeResult :=
  { parsed := none, raw := some raw1, parsing_error := some "invalid json" }

/-- A successful invoke result. -/
def r_ok : InvokeResult :=
  { parsed := some out0, raw := some raw1, parsing_error := none }

/-- A successful repair invoke result. -/
def r2_ok : InvokeResult :=
  { parsed := some out0, raw := some raw2, parsing_error := none }

/-- A repair invoke result that fails parsing again. -/
def r2_fail : InvokeResult :=
  { parsed := none, raw := some raw2, parsing_error := some "still invalid" }

/-- Capability whose primary call already succeeds. -/
def cap_ok : Capability := fun _ => Except.ok r_ok

/-- Capability that fails the primary call and succeeds on the repair call
(dispatching on the repair system instruction). -/
def cap_repair : Capability := fun ms =>
  if ms.head?.map Prod.snd = some REPAIR_SYSTEM_PROMPT then Except.ok r2_ok
  else Except.ok r1_fail

/-- Capability that fails parsing on both calls. -/
def cap_fail : Capability := fun ms =>
  if ms.head?.map Prod.snd = some REPAIR_SYSTEM_PROMPT then Except.ok r2_fail
  else Except.ok r1_fail

/-- Capability that raises a provider failure. -/
def cap_raise : Capability := fun _ => Except.error "network timeout"

/-- A string longer than the 1600-character truncation bound. -/
def long_text : String := String.mk (List.replicate 2000 (Char.ofNat 97))

/-! Helper lemmas: one reduction lemma per branch of `generate_deck`, a
case-analysis lemma covering every run shape, and structural lemmas about
`promote_concepts` and `as_text`. -/

/-- A tri-state result that is not a clean success fails in the sense of
the source's `is None / is not None` test. -/
theorem invoke_fail_of_not_ok (r : InvokeResult)
    (h : ¬ (r.parsed.isSome ∧ r.parsing_error = none)) :
    r.parsed = none ∨ r.parsing_error ≠ none := by
  rcases Option.eq_none_or_eq_some r.parsed with hp | ⟨x, hp⟩
  · exact Or.inl hp
  · right
    intro hnone
    exact h ⟨by simp [hp], hnone⟩

/-- Reduction of `generate_deck` when the primary capability call raises. -/
theorem generate_deck_provider_primary (cap : Capability)
    (freshId : Nat → String) (model : String) (request : DeckGenerateRequest)
    (deck_id : String) (start_time : Nat) (e : String)
    (hcap : cap (primary_messages_for request) = Except.error e) :
    generate_deck cap freshId model request deck_id start_time =
      (Except.error (GenError.provider e), [primary_messages_for request]) := by
  simp [generate_deck, hcap]

/-- Reduction of `generate_deck` when the primary call fails parsing and
the repair capability call raises. -/
theorem generate_deck_provider_repair (cap : Capability)
    (freshId : Nat → String) (model : String) (request : DeckGenerateRequest)
    (deck_id : String) (start_time : Nat) (r1 : InvokeResult) (e : String)
    (hcap1 : cap (primary_messages_for request) = Except.ok r1)
    (hfail : r1.parsed = none ∨ r1.parsing_error ≠ none)
    (hcap2 : cap (repair_messages_for request r1) = Except.error e) :
    generate_deck cap freshId model request deck_id start_time =
      (Except.error (GenError.provider e),
       [primary_messages_for request, repair_messages_for request r1]) := by
  obtain ⟨p, raw, er⟩ := r1
  cases p <;> cases er <;> simp_all [generate_deck]

/-- Reduction of `generate_deck` when the primary call parses cleanly. -/
theorem generate_deck_success_primary (cap : Capability)
    (freshId : Nat → String) (model : String) (request : DeckGenerateRequest)
    (deck_id : String) (start_time : Nat) (r1 : InvokeResult)
    (out : LLMDeckOutput)
    (hcap : cap (primary_messages_for request) = Except.ok r1)
    (hp : r1.parsed = some out) (he : r1.parsing_error = none) :
    generate_deck cap freshId model request deck_id start_time =
      (Except.ok (mk_response model request deck_id start_time freshId out
        (token_usage_from_raw r1.raw)), [primary_messages_for request]) := by
  obtain ⟨p, raw, e⟩ := r1
  simp only [InvokeResult.parsed] at hp
  simp only [InvokeResult.parsing_error] at he
  subst hp; subst he
  simp [generate_deck, hcap]

/-- Reduction of `generate_deck` when the primary call fails parsing and
the repair call parses cleanly. -/
theorem generate_deck_success_repair (cap : Capability)
    (freshId : Nat → String) (model : String) (request : DeckGenerateRequest)
    (deck_id : String) (start_time : Nat) (r1 r2 : InvokeResult)
    (out : LLMDeckOutput)
    (hcap1 : cap (primary_messages_for request) = Except.ok r1)
    (hfail : r1.parsed = none ∨ r1.parsing_error ≠ none)
    (hcap2 : cap (repair_messages_for request r1) = Except.ok r2)
    (hp2 : r2.parsed = some out) (he2 : r2.parsing_error = none) :
    generate_deck cap freshId model request deck_id start_time =
      (Except.ok (mk_response model request deck_id start_time freshId out
        (combine_tokens (token_usage_from_raw r1.raw)
          (token_usage_from_raw r2.raw))),
       [primary_messages_for request, repair_messages_for request r1]) := by
  obtain ⟨p, raw, e⟩ := r1
  obtain ⟨p2, raw2, e2⟩ := r2
  simp only [InvokeResult.parsed] at hp2
  simp only [InvokeResult.parsing_error] at he2
  subst hp2; subst he2
  cases p <;> cases e <;> simp_all [generate_deck]

/-- Reduction of `generate_deck` when both the primary and the repair call
fail parsing: the typed `SchemaValidationFailedError` with its details. -/
theorem generate_deck_double_failure (cap : Capability)
    (freshId : Nat → String) (model : String) (request : DeckGenerateRequest)
    (deck_id : String) (start_time : Nat) (r1 r2 : InvokeResult)
    (hcap1 : cap (primary_messages_for request) = Except.ok r1)
    (hfail1 : r1.parsed = none ∨ r1.parsing_error ≠ none)
    (hcap2 : cap (repair_messages_for request r1) = Except.ok r2)
    (hfail2 : r2.parsed = none ∨ r2.parsing_error ≠ none) :
    generate_deck cap freshId model request deck_id start_time =
      (Except.error (GenError.schemaValidationFailed
        "Deck output failed schema validation."
        (double_failure_details r1.parsing_error r2.parsing_error)),
       [primary_messages_for request, repair_messages_for request r1]) := by
  obtain ⟨p, raw, e⟩ := r1
  obtain ⟨p2, raw2, e2⟩ := r2
  cases p <;> cases e <;> cases p2 <;> cases e2 <;>
    simp_all [generate_deck]

/-- Case analysis over every possible shape of a `generate_deck` run:
provider failure on the primary call, direct success, and after a primary
parse failure the three repair outcomes. -/
theorem generate_deck_shape (cap : Capability) (freshId : Nat → String)
    (model : String) (request : DeckGenerateRequest) (deck_id : String)
    (start_time : Nat) :
    (∃ e, cap (primary_messages_for request) = Except.error e ∧
      generate_deck cap freshId model request deck_id start_time =
        (Except.error (GenError.provider e), [primary_messages_for request])) ∨
    (∃ r1 out, cap (primary_messages_for request) = Except.ok r1 ∧
      r1.parsed = some out ∧ r1.parsing_error = none ∧
      generate_deck cap freshId model request deck_id start_time =
        (Except.ok (mk_response model request deck_id start_time freshId out
          (token_usage_from_raw r1.raw)), [primary_messages_for request])) ∨
    (∃ r1, cap (primary_messages_for request) = Except.ok r1 ∧
      (r1.parsed = none ∨ r1.parsing_error ≠ none) ∧
      ((∃ e, cap (repair_messages_for request r1) = Except.error e ∧
        generate_deck cap freshId model request deck_id start_time =
          (Except.error (GenError.provider e),
           [primary_messages_for request, repair_messages_for request r1])) ∨
       (∃ r2 out, cap (repair_messages_for request r1) = Except.ok r2 ∧
         r2.parsed = some out ∧ r2.parsing_error = none ∧
         generate_deck cap freshId model request deck_id start_time =
           (Except.ok (mk_response model request deck_id start_time freshId out
             (combine_tokens (token_usage_from_raw r1.raw)
               (token_usage_from_raw r2.raw))),
            [primary_messages_for request, repair_messages_for request r1])) ∨
       (∃ r2, cap (repair_messages_for request r1) = Except.ok r2 ∧
         (r2.parsed = none ∨ r2.parsing_error ≠ none) ∧
         generate_deck cap freshId model request deck_id start_time =
           (Except.error (GenError.schemaValidationFailed
             "Deck output failed schema validation."
             (double_failure_details r1.parsing_error r2.parsing_error)),
            [primary_messages_for request, repair_messages_for request r1])))) := by
  cases hc : cap (primary_messages_for request) with
  | error e =>
      exact Or.inl ⟨e, rfl,
        generate_deck_provider_primary cap freshId model request deck_id
          start_time e hc⟩
  | ok r1 =>
      by_cases hok : r1.parsed.isSome ∧ r1.parsing_error = none
      · obtain ⟨hp, he⟩ := hok
        obtain ⟨out, hout⟩ := Option.isSome_iff_exists.mp hp
        exact Or.inr (Or.inl ⟨r1, out, rfl, hout, he,
          generate_deck_success_primary cap freshId model request deck_id
            start_time r1 out hc hout he⟩)
      · have hfail := invoke_fail_of_not_ok r1 hok
        refine Or.inr (Or.inr ⟨r1, rfl, hfail, ?_⟩)
        cases hc2 : cap (repair_messages_for request r1) with
        | error e =>
            exact Or.inl ⟨e, rfl,
              generate_deck_provider_repair cap freshId model request deck_id
                start_time r1 e hc hfail hc2⟩
        | ok r2 =>
            by_cases hok2 : r2.parsed.isSome ∧ r2.parsing_error = none
            · obtain ⟨hp2, he2⟩ := hok2
              obtain ⟨out2, hout2⟩ := Option.isSome_iff_exists.mp hp2
              exact Or.inr (Or.inl ⟨r2, out2, rfl, hout2, he2,
                generate_deck_success_repair cap freshId model request deck_id
                  start_time r1 r2 out2 hc hfail hc2 hout2 he2⟩)
            · have hfail2 := invoke_fail_of_not_ok r2 hok2
              exact Or.inr (Or.inr ⟨r2, rfl, hfail2,
                generate_deck_double_failure cap freshId model request deck_id
                  start_time r1 r2 hc hfail hc2 hfail2⟩)

/-- Field-preservation of the promotion step: dropping the identifier
recovers the original concepts. -/
theorem promote_concepts_fields (freshId : Nat → String)
    (cs : List LLMConcept) :
    (promote_concepts freshId cs).map (fun p =>
        (p.title, p.bullets, p.example_possible, p.example_hint)) =
      cs.map (fun c =>
        (c.title, c.bullets, c.example_possible, c.example_hint)) := by
  induction cs generalizing freshId with
  | nil => rfl
  | cons c cs ih =>
      simp only [promote_concepts, List.mapIdx_cons, List.map_cons]
      exact congrArg _ (ih fun i => freshId (i + 1))

/-- The identifiers assigned by the promotion step are exactly the supply
applied to positions: they depend only on the supply, never on the
LLM-produced concepts. -/
theorem promote_concepts_ids (freshId : Nat → String)
    (cs : List LLMConcept) :
    (promote_concepts freshId cs).map (fun p => p.card_id) =
      (List.range cs.length).map freshId := by
  induction cs generalizing freshId with
  | nil => rfl
  | cons c cs ih =>
      simp only [promote_concepts, List.mapIdx_cons, List.map_cons,
        List.length_cons, List.range_succ_eq_map, List.map_map]
      refine congrArg _ ?_
      have h := ih fun i => freshId (i + 1)
      simp only [promote_concepts] at h
      rw [h]
      simp [Function.comp]

/-- Promotion preserves the number of concepts. -/
theorem promote_concepts_length (freshId : Nat → String)
    (cs : List LLMConcept) :
    (promote_concepts freshId cs).length = cs.length := by
  simp [promote_concepts]

/-- The output of `as_text` never exceeds 1600 characters. -/
theorem as_text_length_le (v : Option String) : (as_text v).length ≤ 1600 := by
  cases v with
  | none => simp [as_text]
  | some s =>
      show (s.take 1600).length ≤ 1600
      rw [String.take_eq]
      show (s.data.take 1600).length ≤ 1600
      rw [List.length_take]
      exact min_le_left _ _

/-- C1: whenever both the primary structured-invoker call and the single
repair call fail to parse/validate, `generate_deck` raises
`SchemaValidationFailedError` (no `GenerationResult` is produced), and the
details payload carries the field name "response", a human-readable
message, the machine error kind "schema_validation_failed", the original
parsing error text and the repair error text. -/
theorem claim_C1 (cap : Capability) (freshId : Nat → String) (model : String)
    (request : DeckGenerateRequest) (deck_id : String) (start_time : Nat)
    (r1 r2 : InvokeResult)
    (hcap1 : cap (primary_messages_for request) = Except.ok r1)
    (hfail1 : r1.parsed = none ∨ r1.parsing_error ≠ none)
    (hcap2 : cap (repair_messages_for request r1) = Except.ok r2)
    (hfail2 : r2.parsed = none ∨ r2.parsing_error ≠ none) :
    generate_deck cap freshId model request deck_id start_time =
      (Except.error (GenError.schemaValidationFailed
        "Deck output failed schema validation."
        (double_failure_details r1.parsing_error r2.parsing_error)),
       [primary_messages_for request, repair_messages_for request r1]) ∧
    (double_failure_details r1.parsing_error r2.parsing_error).validation_errors =
      [{ field := "response"
         message := "Deck output failed schema validation after repair attempt."
         type := "schema_validation_failed" }] ∧
    (double_failure_details r1.parsing_error r2.parsing_error).parsing_error =
      as_text r1.parsing_error ∧
    (double_failure_details r1.parsing_error r2.parsing_error).repair_error =
      as_text r2.parsing_error :=
  ⟨generate_deck_double_failure cap freshId model request deck_id start_time
      r1 r2 hcap1 hfail1 hcap2 hfail2, rfl, rfl, rfl⟩

/-- Witness for C1: the double-failure capability indeed satisfies the
hypotheses, and the run raises the typed failure. -/
theorem claim_C1_witness :
    (cap_fail (primary_messages_for req0) = Except.ok r1_fail) ∧
    (r1_fail.parsed = none ∨ r1_fail.parsing_error ≠ none) ∧
    (cap_fail (repair_messages_for req0 r1_fail) = Except.ok r2_fail) ∧
    (r2_fail.parsed = none ∨ r2_fail.parsing_error ≠ none) ∧
    generate_deck cap_fail fid0 "gpt-4o-mini" req0 "deck-1" 0 =
      (Except.error (GenError.schemaValidationFailed
        "Deck output failed schema validation."
        (double_failure_details r1_fail.parsing_error r2_fail.parsing_error)),
       [primary_messages_for req0, repair_messages_for req0 r1_fail]) :=
  ⟨rfl, Or.inl rfl, rfl, Or.inl rfl,
    (claim_C1 cap_fail fid0 "gpt-4o-mini" req0 "deck-1" 0 r1_fail r2_fail
      rfl (Or.inl rfl) rfl (Or.inl rfl)).1⟩

/-- C2: whenever the primary call fails to parse/validate and the repair
call succeeds, exactly one repair call is made (the trace has length two)
and the returned result's token usage is the field-wise sum of the two
calls' usages. -/
theorem claim_C2 (cap : Capability) (freshId : Nat → String) (model : String)
    (request : DeckGenerateRequest) (deck_id : String) (start_time : Nat)
    (r1 r2 : InvokeResult) (out : LLMDeckOutput)
    (hcap1 : cap (primary_messages_for request) = Except.ok r1)
    (hfail : r1.parsed = none ∨ r1.parsing_error ≠ none)
    (hcap2 : cap (repair_messages_for request r1) = Except.ok r2)
    (hp2 : r2.parsed = some out) (he2 : r2.parsing_error = none) :
    generate_deck cap freshId model request deck_id start_time =
      (Except.ok (mk_response model request deck_id start_time freshId out
        (combine_tokens (token_usage_from_raw r1.raw)
          (token_usage_from_raw r2.raw))),
       [primary_messages_for request, repair_messages_for request r1]) ∧
    (generate_deck cap freshId model request deck_id start_time).2.length = 2 ∧
    (mk_response model request deck_id start_time freshId out
        (combine_tokens (token_usage_from_raw r1.raw)
          (token_usage_from_raw r2.raw))).generation_metadata.tokens.prompt =
      (token_usage_from_raw r1.raw).prompt + (token_usage_from_raw r2.raw).prompt ∧
    (mk_response model request deck_id start_time freshId out
        (combine_tokens (token_usage_from_raw r1.raw)
          (token_usage_from_raw r2.raw))).generation_metadata.tokens.completion =
      (token_usage_from_raw r1.raw).completion +
        (token_usage_from_raw r2.raw).completion ∧
    (mk_response model request deck_id start_time freshId out
        (combine_tokens (token_usage_from_raw r1.raw)
          (token_usage_from_raw r2.raw))).generation_metadata.tokens.total =
      (token_usage_from_raw r1.raw).total + (token_usage_from_raw r2.raw).total := by
  have h := generate_deck_success_repair cap freshId model request deck_id
    start_time r1 r2 out hcap1 hfail hcap2 hp2 he2
  exact ⟨h, by rw [h]; rfl, rfl, rfl, rfl⟩

/-- Witness for C2: a run whose primary call fails with usage
(10, 20, 30) and whose repair call succeeds with usage (5, 7, 12): the
result's usage is (15, 27, 42) and the trace has two calls. -/
theorem claim_C2_witness :
    (cap_repair (primary_messages_for req0) = Except.ok r1_fail) ∧
    (r1_fail.parsed = none ∨ r1_fail.parsing_error ≠ none) ∧
    (cap_repair (repair_messages_for req0 r1_fail) = Except.ok r2_ok) ∧
    (r2_ok.parsed = some out0) ∧ (r2_ok.parsing_error = none) ∧
    generate_deck cap_repair fid0 "gpt-4o-mini" req0 "deck-1" 0 =
      (Except.ok (mk_response "gpt-4o-mini" req0 "deck-1" 0 fid0 out0
        (combine_tokens (token_usage_from_raw r1_fail.raw)
          (token_usage_from_raw r2_ok.raw))),
       [primary_messages_for req0, repair_messages_for req0 r1_fail]) ∧
    combine_tokens (token_usage_from_raw r1_fail.raw)
        (token_usage_from_raw r2_ok.raw) =
      { prompt := 15, completion := 27, total := 42 } :=
  ⟨rfl, Or.inl rfl, rfl, rfl, rfl,
    (claim_C2 cap_repair fid0 "gpt-4o-mini" req0 "deck-1" 0 r1_fail r2_ok out0
      rfl (Or.inl rfl) rfl rfl rfl).1, rfl⟩

/-- C3: whenever the primary call returns a parsed output with no parsing
error, the repair coordinator is never invoked — the trace holds exactly
the one primary call — and the result reports that call's usage alone. -/
theorem claim_C3 (cap : Capability) (freshId : Nat → String) (model : String)
    (request : DeckGenerateRequest) (deck_id : String) (start_time : Nat)
    (r1 : InvokeResult) (out : LLMDeckOutput)
    (hcap : cap (primary_messages_for request) = Except.ok r1)
    (hp : r1.parsed = some out) (he : r1.parsing_error = none) :
    generate_deck cap freshId model request deck_id start_time =
      (Except.ok (mk_response model request deck_id start_time freshId out
        (token_usage_from_raw r1.raw)), [primary_messages_for request]) ∧
    (generate_deck cap freshId model request deck_id start_time).2.length = 1 ∧
    (mk_response model request deck_id start_time freshId out
        (token_usage_from_raw r1.raw)).generation_metadata.tokens =
      token_usage_from_raw r1.raw := by
  have h := generate_deck_success_primary cap freshId model request deck_id
    start_time r1 out hcap hp he
  exact ⟨h, by rw [h]; rfl, rfl⟩

/-- Witness for C3: a run whose primary call succeeds performs exactly one
capability call. -/
theorem claim_C3_witness :
    (cap_ok (primary_messages_for req0) = Except.ok r_ok) ∧
    (r_ok.parsed = some out0) ∧ (r_ok.parsing_error = none) ∧
    (generate_deck cap_ok fid0 "gpt-4o-mini" req0 "deck-1" 0).2.length = 1 :=
  ⟨rfl, rfl, rfl,
    (claim_C3 cap_ok fid0 "gpt-4o-mini" req0 "deck-1" 0 r_ok out0
      rfl rfl rfl).2.1⟩

/-- C4: an exception of the LLM capability that is not a schema/parsing
failure propagates unchanged as a provider failure and no repair pass is
attempted for it — after a primary-call exception the trace holds that one
call only, and after a repair-call exception no further call is made. -/
theorem claim_C4 (cap : Capability) (freshId : Nat → String) (model : String)
    (request : DeckGenerateRequest) (deck_id : String) (start_time : Nat) :
    (∀ e, cap (primary_messages_for request) = Except.error e →
      generate_deck cap freshId model request deck_id start_time =
        (Except.error (GenError.provider e), [primary_messages_for request])) ∧
    (∀ r1 e, cap (primary_messages_for request) = Except.ok r1 →
      (r1.parsed = none ∨ r1.parsing_error ≠ none) →
      cap (repair_messages_for request r1) = Except.error e →
      generate_deck cap freshId model request deck_id start_time =
        (Except.error (GenError.provider e),
         [primary_messages_for request, repair_messages_for request r1])) :=
  ⟨fun e he => generate_deck_provider_primary cap freshId model request
      deck_id start_time e he,
   fun r1 e h1 h2 h3 => generate_deck_provider_repair cap freshId model
      request deck_id start_time r1 e h1 h2 h3⟩

/-- Witness for C4: a capability raising "network timeout" on the primary
call propagates unchanged with a single-call trace. -/
theorem claim_C4_witness :
    (cap_raise (primary_messages_for req0) = Except.error "network timeout") ∧
    generate_deck cap_raise fid0 "gpt-4o-mini" req0 "deck-1" 0 =
      (Except.error (GenError.provider "network timeout"),
       [primary_messages_for req0]) :=
  ⟨rfl,
    (claim_C4 cap_raise fid0 "gpt-4o-mini" req0 "deck-1" 0).1
      "network timeout" rfl⟩

/-- Counterexample to C5 as stated: in a concrete run the messages list
sent to the capability has roles ["system", "human"] — the user-turn role
is "human", which is neither "system" nor "user". -/
theorem claim_C5_counterexample :
    ((generate_deck cap_ok fid0 "gpt-4o-mini" req0 "deck-1" 0).2.map fun ms =>
      ms.map Prod.fst) = [["system", "human"]] ∧
    ¬ ("human" = "system" ∨ "human" = "user") :=
  ⟨rfl, by decide⟩

/-- C5 (amended): every messages list the pipeline passes to the
capability — primary and repair alike — is an ordered list of (role, text)
pairs whose roles are exactly "system" then "human" (the LangChain name of
the user turn), not "user". -/
theorem claim_C5 (cap : Capability) (freshId : Nat → String) (model : String)
    (request : DeckGenerateRequest) (deck_id : String) (start_time : Nat) :
    ∀ ms ∈ (generate_deck cap freshId model request deck_id start_time).2,
      ms.map Prod.fst = ["system", "human"] := by
  have hpm : (primary_messages_for request).map Prod.fst =
      ["system", "human"] := rfl
  have hrm : ∀ r1, (repair_messages_for request r1).map Prod.fst =
      ["system", "human"] := fun _ => rfl
  intro ms hms
  rcases generate_deck_shape cap freshId model request deck_id start_time with
    ⟨e, _, hgd⟩ | ⟨r1, out, _, _, _, hgd⟩ |
    ⟨r1, _, _, ⟨e, _, hgd⟩ | ⟨r2, out, _, _, _, hgd⟩ | ⟨r2, _, _, hgd⟩⟩ <;>
    rw [hgd] at hms <;>
    simp only [List.mem_cons, List.mem_singleton, List.not_mem_nil] at hms <;>
    rcases hms with h | h | h <;>
    first
      | (subst h; first | exact hpm | exact hrm _)
      | cases h

/-- Witness for C5 (amended): the primary messages list of a concrete run
is in the trace and has roles ["system", "human"]. -/
theorem claim_C5_witness :
    primary_messages_for req0 ∈
      (generate_deck cap_ok fid0 "gpt-4o-mini" req0 "deck-1" 0).2 ∧
    (primary_messages_for req0).map Prod.fst = ["system", "human"] := by
  have ht : (generate_deck cap_ok fid0 "gpt-4o-mini" req0 "deck-1" 0).2 =
      [primary_messages_for req0] := rfl
  have hmem : primary_messages_for req0 ∈
      (generate_deck cap_ok fid0 "gpt-4o-mini" req0 "deck-1" 0).2 := by
    rw [ht]
    exact List.mem_singleton.mpr rfl
  exact ⟨hmem, claim_C5 cap_ok fid0 "gpt-4o-mini" req0 "deck-1" 0
    (primary_messages_for req0) hmem⟩

/-- C6: the token accountant's combine is field-wise addition on
`TokenUsage`, and it is commutative and associative. -/
theorem claim_C6 :
    (∀ a b : TokenUsage, combine_tokens a b =
      { prompt := a.prompt + b.prompt
        completion := a.completion + b.completion
        total := a.total + b.total }) ∧
    (∀ a b : TokenUsage, combine_tokens a b = combine_tokens b a) ∧
    (∀ a b c : TokenUsage, combine_tokens (combine_tokens a b) c =
      combine_tokens a (combine_tokens b c)) := by
  refine ⟨fun a b => rfl, fun a b => ?_, fun a b c => ?_⟩ <;>
    simp [combine_tokens, TokenUsage.mk.injEq] <;> omega

/-- Witness for C6: commutativity and associativity at concrete usages. -/
theorem claim_C6_witness :
    combine_tokens { prompt := 10, completion := 20, total := 30 }
        { prompt := 5, completion := 7, total := 12 } =
      combine_tokens { prompt := 5, completion := 7, total := 12 }
        { prompt := 10, completion := 20, total := 30 } ∧
    combine_tokens
        (combine_tokens { prompt := 1, completion := 2, total := 3 }
          { prompt := 4, completion := 5, total := 6 })
        { prompt := 7, completion := 8, total := 9 } =
      combine_tokens { prompt := 1, completion := 2, total := 3 }
        (combine_tokens { prompt := 4, completion := 5, total := 6 }
          { prompt := 7, completion := 8, total := 9 }) :=
  ⟨claim_C6.2.1 _ _, claim_C6.2.2 _ _ _⟩

/-- C7: promoting the RawConcepts of an accepted output preserves title,
bullets, example_possible and example_hint exactly; the assigned
identifiers are exactly the fresh supply applied to positions (so they are
never produced by the LLM output), each is non-empty, and they are
pairwise distinct, provided the supply is non-empty and duplicate-free on
the positions used (the uuid4 guarantee). -/
theorem claim_C7 (freshId : Nat → String) (cs : List LLMConcept)
    (h1 : ∀ i, i < cs.length → freshId i ≠ "")
    (h2 : ((List.range cs.length).map freshId).Nodup) :
    (promote_concepts freshId cs).length = cs.length ∧
    (promote_concepts freshId cs).map (fun p =>
        (p.title, p.bullets, p.example_possible, p.example_hint)) =
      cs.map (fun c =>
        (c.title, c.bullets, c.example_possible, c.example_hint)) ∧
    (promote_concepts freshId cs).map (fun p => p.card_id) =
      (List.range cs.length).map freshId ∧
    (∀ cid ∈ (promote_concepts freshId cs).map fun p => p.card_id,
      cid ≠ "") ∧
    ((promote_concepts freshId cs).map fun p => p.card_id).Nodup := by
  refine ⟨promote_concepts_length freshId cs,
    promote_concepts_fields freshId cs, promote_concepts_ids freshId cs,
    ?_, ?_⟩
  · intro cid hcid
    rw [promote_concepts_ids] at hcid
    obtain ⟨i, hi, hcid⟩ := List.mem_map.mp hcid
    exact hcid ▸ h1 i (List.mem_range.mp hi)
  · rw [promote_concepts_ids freshId cs]
    exact h2

/-- Witness for C7: a concrete promotion with the uuid4-style supply has
non-empty pairwise-distinct identifiers and preserves the fields. -/
theorem claim_C7_witness :
    (∀ i, i < out0.concepts.length → fid0 i ≠ "") ∧
    ((List.range out0.concepts.length).map fid0).Nodup ∧
    ((promote_concepts fid0 out0.concepts).map fun p => p.card_id).Nodup :=
  ⟨by decide, by decide,
    (claim_C7 fid0 out0.concepts (by decide) (by decide)).2.2.2.2⟩

/-- C8: extracting usage from a raw response that is absent, or whose
usage metadata is absent, yields all-zero counters without failing, and
each individually missing counter defaults to zero. -/
theorem claim_C8 :
    token_usage_from_raw none =
      { prompt := 0, completion := 0, total := 0 } ∧
    (∀ content, token_usage_from_raw
        (some { usage_metadata := none, content := content }) =
      { prompt := 0, completion := 0, total := 0 }) ∧
    (∀ u content, u.input_tokens = none →
      (token_usage_from_raw
        (some { usage_metadata := some u, content := content })).prompt = 0) ∧
    (∀ u content, u.output_tokens = none →
      (token_usage_from_raw
        (some { usage_metadata := some u, content := content })).completion
        = 0) ∧
    (∀ u content, u.total_tokens = none →
      (token_usage_from_raw
        (some { usage_metadata := some u, content := content })).total = 0) := by
  refine ⟨rfl, fun content => rfl, fun u content h => ?_,
    fun u content h => ?_, fun u content h => ?_⟩ <;>
    simp [token_usage_from_raw, h]

/-- Witness for C8: a usage record missing its input counter yields a zero
prompt count. -/
theorem claim_C8_witness :
    ((UsageMetadata.mk none (some 7) (some 7)).input_tokens = none) ∧
    (token_usage_from_raw (some (RawMessage.mk
      (some (UsageMetadata.mk none (some 7) (some 7))) "x"))).prompt = 0 :=
  ⟨rfl, claim_C8.2.2.1 (UsageMetadata.mk none (some 7) (some 7)) "x" rfl⟩

/-- C9: every successful run's metadata carries the start timestamp
recorded before the primary call (even when a repair call later occurred),
`rag_used = false`, and the accumulated token usage — the primary call's
usage alone, or the combined usage when a repair call was made. -/
theorem claim_C9 (cap : Capability) (freshId : Nat → String) (model : String)
    (request : DeckGenerateRequest) (deck_id : String) (start_time : Nat)
    (resp : DeckResponse)
    (h : (generate_deck cap freshId model request deck_id start_time).1 =
      Except.ok resp) :
    resp.generation_metadata.timestamp = start_time ∧
    resp.generation_metadata.rag_used = false ∧
    ((∃ r1, cap (primary_messages_for request) = Except.ok r1 ∧
        r1.parsing_error = none ∧
        resp.generation_metadata.tokens = token_usage_from_raw r1.raw) ∨
     (∃ r1 r2, cap (primary_messages_for request) = Except.ok r1 ∧
        (r1.parsed = none ∨ r1.parsing_error ≠ none) ∧
        cap (repair_messages_for request r1) = Except.ok r2 ∧
        resp.generation_metadata.tokens =
          combine_tokens (token_usage_from_raw r1.raw)
            (token_usage_from_raw r2.raw))) := by
  rcases generate_deck_shape cap freshId model request deck_id start_time with
    ⟨e, hc, hgd⟩ | ⟨r1, out, hc, hp, he, hgd⟩ |
    ⟨r1, hc, hfail, ⟨e, hc2, hgd⟩ | ⟨r2, out, hc2, hp2, he2, hgd⟩ |
      ⟨r2, hc2, hfail2, hgd⟩⟩ <;>
    rw [hgd] at h <;> simp only at h
  · cases h
  · cases h
    exact ⟨rfl, rfl, Or.inl ⟨r1, hc, he, rfl⟩⟩
  · cases h
  · cases h
    exact ⟨rfl, rfl, Or.inr ⟨r1, r2, hc, hfail, hc2, rfl⟩⟩
  · cases h

/-- Witness for C9: a concrete successful run started at instant 5 reports
timestamp 5 in its metadata. -/
theorem claim_C9_witness :
    ((generate_deck cap_ok fid0 "gpt-4o-mini" req0 "deck-1" 5).1 =
      Except.ok (mk_response "gpt-4o-mini" req0 "deck-1" 5 fid0 out0
        (token_usage_from_raw r_ok.raw))) ∧
    (mk_response "gpt-4o-mini" req0 "deck-1" 5 fid0 out0
      (token_usage_from_raw r_ok.raw)).generation_metadata.timestamp = 5 :=
  ⟨rfl, (claim_C9 cap_ok fid0 "gpt-4o-mini" req0 "deck-1" 5
    (mk_response "gpt-4o-mini" req0 "deck-1" 5 fid0 out0
      (token_usage_from_raw r_ok.raw)) rfl).1⟩

/-- C10: `_as_text` maps `None` to the empty string and truncates every
payload to at most 1600 characters; the repair prompt embeds exactly the
`_as_text` images of the raw invalid output and of the parsing error, and
the double-failure details record exactly the `_as_text` images of the two
error texts — hence both recorded texts are at most 1600 characters. -/
theorem claim_C10 (v p r : Option String) (request : DeckGenerateRequest)
    (r1 : InvokeResult) :
    (as_text v).length ≤ 1600 ∧
    as_text none = "" ∧
    repair_messages_for request r1 =
      repair_messages
        (get_deck_prompts request.topic request.difficulty_level
          request.max_concepts request.scope).1
        (get_deck_prompts request.topic request.difficulty_level
          request.max_concepts request.scope).2
        (as_text (raw_content r1.raw)) (as_text r1.parsing_error) ∧
    (double_failure_details p r).parsing_error = as_text p ∧
    (double_failure_details p r).repair_error = as_text r ∧
    (double_failure_details p r).parsing_error.length ≤ 1600 ∧
    (double_failure_details p r).repair_error.length ≤ 1600 :=
  ⟨as_text_length_le v, rfl, rfl, rfl, rfl, as_text_length_le p,
    as_text_length_le r⟩

/-- Witness for C10: a 2000-character payload is truncated to at most 1600
characters. -/
theorem claim_C10_witness :
    (as_text (some long_text)).length ≤ 1600 :=
  (claim_C10 (some long_text) none none req0 r1_fail).1

end AIFlashcards
